import Mathlib

/-!
# Button driver (button.c / button.h): debounce and short/long press classification

A shallow embedding of the polling state machine of `button.c`.

* `uint32_t` tick values and `uint8_t` latches are natural numbers; the one place where
  32-bit overflow matters, the elapsed-time subtraction, is reduced modulo `2^32`
  explicitly (`sub32`).
* The `Button_t *` argument becomes a value that is passed in and returned.
* The two HAL calls are inputs: every value `HAL_GetTick()` returns during a call and the
  level `HAL_GPIO_ReadPin` returns are arguments of the embedded function.
-/

namespace Button

/-! ## Types of button.h -/

/-- Modelled from the spec: the HAL enumeration `GPIO_PinState` (declared in
`stm32f4xx_hal.h`, not part of the sources) with its two canonical logic levels. -/
inductive GPIO_PinState where
  | GPIO_PIN_RESET
  | GPIO_PIN_SET
  deriving DecidableEq, Repr

open GPIO_PinState

/-- Enumerators of `Button_State` (button.h 50-56); the field holding them is a number,
since `Poll_Button` has a `default:` branch for any other value. -/
abbrev BTN_STATE_DEFAULT : Nat := 0
/-- Enumerator `BTN_PRESSED_DEBOUNCING = 1`. -/
abbrev BTN_PRESSED_DEBOUNCING : Nat := 1
/-- Enumerator `BTN_PRESSED_SHORT = 2`. -/
abbrev BTN_PRESSED_SHORT : Nat := 2
/-- Enumerator `BTN_PRESSED_LONG = 3`. -/
abbrev BTN_PRESSED_LONG : Nat := 3

/-- Enumerator `BTN_INACTIVE = 0` of `Button_LogicState` (button.h 58-62). -/
abbrev BTN_INACTIVE : Nat := 0
/-- Enumerator `BTN_ACTIVE = 1` of `Button_LogicState`. -/
abbrev BTN_ACTIVE : Nat := 1

/-- The structure `Button_t` (button.h 64-82), field by field. `btn_gpio` is the port
pointer, kept as an address. -/
structure Button_t where
  btn_gpio : Nat
  btn_gpio_pin : Nat
  btn_logic_active : GPIO_PinState
  btn_tick_debounce : Nat
  btn_tick_long : Nat
  btn_tick_timeout : Nat
  btn_state : Nat
  btn_tick_present : Nat
  btn_tick_debounce_start : Nat
  btn_tick_timeout_start : Nat
  btn_logic_state : Nat
  btn_value_short : Nat
  btn_value_long : Nat
  deriving DecidableEq, Repr

/-- The modulus of `uint32_t` arithmetic, `2^32`. -/
abbrev U32 : Nat := 4294967296

/-- The C expression `a - b` on `uint32_t` operands: the difference modulo `2^32`. -/
def sub32 (a b : Nat) : Nat := (a + U32 - b % U32) % U32

/-! ## Functions of button.c -/

/-- The function `Button_Init` (button.c 46-67): it stores the hardware and timing configuration,
normalising the polarity. It assigns no process variable. -/
def Button_Init (Button : Button_t) (set_btn_gpio set_btn_gpio_pin : Nat)
    (set_btn_logic_active : GPIO_PinState)
    (set_btn_tick_debounce set_btn_tick_long set_btn_tick_timeout : Nat) : Button_t :=
  let Button := { Button with btn_gpio := set_btn_gpio }
  let Button := { Button with btn_gpio_pin := set_btn_gpio_pin }
  let Button :=
    if set_btn_logic_active = GPIO_PIN_RESET then
      { Button with btn_logic_active := GPIO_PIN_RESET }
    else
      { Button with btn_logic_active := GPIO_PIN_SET }
  let Button := { Button with btn_tick_debounce := set_btn_tick_debounce }
  let Button := { Button with btn_tick_long := set_btn_tick_long }
  { Button with btn_tick_timeout := set_btn_tick_timeout }

/-- The function `Button_Read_Logic` (button.c 76-78). -/
def Button_Read_Logic (Button : Button_t) : Nat :=
  Button.btn_logic_state

/-- The function `Button_Read_Short` (button.c 86-100). `pin` is the level that
`HAL_GPIO_ReadPin(Button->btn_gpio, Button->btn_gpio_pin)` returns; the result is the
returned byte together with the button as the call leaves it. -/
def Button_Read_Short (Button : Button_t) (pin : GPIO_PinState) : Nat × Button_t :=
  if pin ≠ Button.btn_logic_active then
    if Button.btn_value_short ≠ 0 then
      (1, { Button with btn_value_short := 0, btn_value_long := 0 })
    else
      (0, Button)
  else
    (0, Button)

/-- The function `Button_Read_Long` (button.c 107-121), with the same conventions as
`Button_Read_Short`. -/
def Button_Read_Long (Button : Button_t) (pin : GPIO_PinState) : Nat × Button_t :=
  if pin ≠ Button.btn_logic_active then
    if Button.btn_value_long ≠ 0 then
      (1, { Button with btn_value_short := 0, btn_value_long := 0 })
    else
      (0, Button)
  else
    (0, Button)

/-- The function `Button_Timeout` (button.c 129-136). -/
def Button_Timeout (Button : Button_t) : Button_t :=
  if Button.btn_value_short ≠ 0 ∨ Button.btn_value_long ≠ 0 then
    if sub32 Button.btn_tick_present Button.btn_tick_timeout_start ≥ Button.btn_tick_timeout then
      { Button with btn_value_short := 0, btn_value_long := 0 }
    else
      Button
  else
    Button

/-- The function `Poll_Button` (button.c 157-228). `tick0` is what `HAL_GetTick()` returns at line 158;
`tick1` is what the second `HAL_GetTick()` of the same call returns, on the paths that
make one (lines 165, 203, 217); `pin` is the level `HAL_GPIO_ReadPin` returns, read once
on every path through a recognised state. -/
def Poll_Button (Button : Button_t) (tick0 tick1 : Nat) (pin : GPIO_PinState) : Button_t :=
  let Button := { Button with btn_tick_present := tick0 }
  let Button := Button_Timeout Button
  if Button.btn_state = BTN_STATE_DEFAULT then
    let Button := { Button with btn_logic_state := 0 }
    if pin = Button.btn_logic_active then
      let Button := { Button with btn_tick_debounce_start := tick1 }
      { Button with btn_state := BTN_PRESSED_DEBOUNCING }
    else
      { Button with btn_state := BTN_STATE_DEFAULT }
  else if Button.btn_state = BTN_PRESSED_DEBOUNCING then
    let Button := { Button with btn_logic_state := 0 }
    if pin = Button.btn_logic_active then
      if sub32 Button.btn_tick_present Button.btn_tick_debounce_start
          ≥ Button.btn_tick_debounce then
        { Button with btn_state := BTN_PRESSED_SHORT }
      else
        { Button with btn_state := BTN_PRESSED_DEBOUNCING }
    else
      { Button with btn_state := BTN_STATE_DEFAULT }
  else if Button.btn_state = BTN_PRESSED_SHORT then
    let Button := { Button with btn_logic_state := 1 }
    if pin = Button.btn_logic_active then
      if sub32 Button.btn_tick_present Button.btn_tick_debounce_start
          ≥ Button.btn_tick_long then
        let Button := { Button with btn_value_long := 1 }
        { Button with btn_state := BTN_PRESSED_LONG }
      else
        { Button with btn_state := BTN_PRESSED_SHORT }
    else
      let Button :=
        if Button.btn_value_short = 0 then
          let Button := { Button with btn_tick_timeout_start := tick1 }
          { Button with btn_value_short := 1 }
        else
          Button
      { Button with btn_state := BTN_STATE_DEFAULT }
  else if Button.btn_state = BTN_PRESSED_LONG then
    let Button := { Button with btn_logic_state := 1 }
    if pin = Button.btn_logic_active then
      { Button with btn_state := BTN_PRESSED_LONG }
    else
      let Button :=
        if Button.btn_value_long = 0 then
          let Button := { Button with btn_tick_timeout_start := tick1 }
          { Button with btn_value_long := 1 }
        else
          Button
      { Button with btn_state := BTN_STATE_DEFAULT }
  else
    { Button with btn_state := BTN_STATE_DEFAULT }

/-! ## Runs: sequences of calls made by the application -/

/-- One call of the driver's interface together with what the HAL returns during it. -/
inductive Call where
  | poll (tick0 tick1 : Nat) (pin : GPIO_PinState)
  | readShort (pin : GPIO_PinState)
  | readLong (pin : GPIO_PinState)
  deriving DecidableEq, Repr

/-- The button after one call. -/
def step (Button : Button_t) : Call → Button_t
  | Call.poll tick0 tick1 pin => Poll_Button Button tick0 tick1 pin
  | Call.readShort pin => (Button_Read_Short Button pin).2
  | Call.readLong pin => (Button_Read_Long Button pin).2

/-- The button after a sequence of calls, made in order. -/
def run (Button : Button_t) (calls : List Call) : Button_t :=
  calls.foldl step Button

/-- A `Button_t` object with static storage before any call: every byte zero, so the state
is `BTN_STATE_DEFAULT` and `btn_logic_active` holds the enumerator of value 0. -/
def zeroButton : Button_t :=
  { btn_gpio := 0, btn_gpio_pin := 0, btn_logic_active := GPIO_PIN_RESET,
    btn_tick_debounce := 0, btn_tick_long := 0, btn_tick_timeout := 0,
    btn_state := 0, btn_tick_present := 0, btn_tick_debounce_start := 0,
    btn_tick_timeout_start := 0, btn_logic_state := 0,
    btn_value_short := 0, btn_value_long := 0 }

/-- The zero-initialised button after `Button_Init` with the given configuration. -/
def initButton (gpio gpio_pin : Nat) (active : GPIO_PinState)
    (debounce long timeout : Nat) : Button_t :=
  Button_Init zeroButton gpio gpio_pin active debounce long timeout

/-- The clock values sampled by the polls of a run, in the order the HAL hands them out. -/
def clockSamples : List Call → List Nat
  | [] => []
  | Call.poll tick0 tick1 _ :: calls => tick0 :: tick1 :: clockSamples calls
  | Call.readShort _ :: calls => clockSamples calls
  | Call.readLong _ :: calls => clockSamples calls

/-- The held output is true. -/
def held (Button : Button_t) : Prop := Button_Read_Logic Button ≠ BTN_INACTIVE

instance (Button : Button_t) : Decidable (held Button) := by
  unfold held; infer_instance

/-! ## Concrete configurations and runs used below -/

/-- A pull-down button on port address 1073872896, pin mask 1: debounce 20 ms, long press
500 ms, results kept 300 ms. -/
def btn300 : Button_t := initButton 1073872896 1 GPIO_PIN_SET 20 500 300

/-- The same button with results kept for one second. -/
def btn1000 : Button_t := initButton 1073872896 1 GPIO_PIN_SET 20 500 1000

/-- The same button with results kept for ten seconds. -/
def btn10000 : Button_t := initButton 1073872896 1 GPIO_PIN_SET 20 500 10000

/-- A press seen at 0 ms whose debounce completes on the poll at 20 ms. -/
def confirmRun : List Call :=
  [Call.poll 0 0 GPIO_PIN_SET, Call.poll 20 20 GPIO_PIN_SET]

/-- The press of `confirmRun`, released on the poll at 30 ms. -/
def shortPressRun : List Call :=
  confirmRun ++ [Call.poll 30 30 GPIO_PIN_RESET]

/-- A press seen at 100 ms, confirmed at 120 ms and promoted to a long press by the poll at
600 ms, the pin still active. -/
def longHoldRun : List Call :=
  [Call.poll 100 100 GPIO_PIN_SET, Call.poll 120 120 GPIO_PIN_SET,
   Call.poll 600 600 GPIO_PIN_SET]

/-- The long press of `longHoldRun`, released on the poll at 700 ms. -/
def longReleaseRun : List Call :=
  longHoldRun ++ [Call.poll 700 700 GPIO_PIN_RESET]

/-- The released long press of `longReleaseRun`, polled again 300 ms after the release with
the pin still inactive and no read in between. -/
def longExpiredRun : List Call :=
  longReleaseRun ++ [Call.poll 1000 1000 GPIO_PIN_RESET]

/-- A short press (100 ms to 200 ms) that is never read, then a second press seen at
1000 ms, confirmed at 1020 ms and promoted to a long press at 1500 ms. -/
def shortThenLongRun : List Call :=
  [Call.poll 100 100 GPIO_PIN_SET, Call.poll 120 120 GPIO_PIN_SET,
   Call.poll 200 200 GPIO_PIN_RESET, Call.poll 1000 1000 GPIO_PIN_SET,
   Call.poll 1020 1020 GPIO_PIN_SET, Call.poll 1500 1500 GPIO_PIN_SET]

/-- A bounce as a sequence of polls: the pin reads `active` on a first poll and on the
polls of `more` (each a pair of clock samples), then `inactive` on a last poll. -/
def bounceRun (active inactive : GPIO_PinState) (tick0 tick1 : Nat)
    (more : List (Nat × Nat)) (last0 last1 : Nat) : List Call :=
  Call.poll tick0 tick1 active ::
    (more.map (fun p => Call.poll p.1 p.2 active) ++ [Call.poll last0 last1 inactive])

/-- The invariant behind latch exclusivity: the latches are not both set, and the short
latch is clear while the state is `BTN_PRESSED_LONG`. -/
def latchInv (Button : Button_t) : Prop :=
  (Button.btn_value_short = 0 ∨ Button.btn_value_long = 0)
    ∧ (Button.btn_state = BTN_PRESSED_LONG → Button.btn_value_short = 0)

/-- A poll that lets the latch of an earlier press meet the latch of the current one: it
finds the button in `BTN_PRESSED_SHORT` and either promotes it (pin active, long-press
duration elapsed) while the short latch is still set once the timeout rule of that poll has
run, or sees the release (pin inactive) while the long latch is still set once the timeout
rule of that poll has run. A read is never such a call. -/
def staleLatchPoll (Button : Button_t) : Call → Prop
  | Call.poll tick0 _ pin =>
      Button.btn_state = BTN_PRESSED_SHORT ∧
        ((pin = Button.btn_logic_active
            ∧ sub32 tick0 Button.btn_tick_debounce_start ≥ Button.btn_tick_long
            ∧ (Button_Timeout { Button with btn_tick_present := tick0 }).btn_value_short ≠ 0)
          ∨ (pin ≠ Button.btn_logic_active
            ∧ (Button_Timeout { Button with btn_tick_present := tick0 }).btn_value_long ≠ 0))
  | Call.readShort _ => False
  | Call.readLong _ => False

instance (Button : Button_t) (c : Call) : Decidable (staleLatchPoll Button c) := by
  cases c <;> (unfold staleLatchPoll; infer_instance)

/-- A short press (0 ms to 30 ms) that is never read; a second press seen at 100 ms and
confirmed at 120 ms while the first result is still latched; the result expires on the
poll at 400 ms and the second press is released at 450 ms. Results are kept 300 ms. -/
def expiredBeforeReleaseRun : List Call :=
  [Call.poll 0 0 GPIO_PIN_SET, Call.poll 20 20 GPIO_PIN_SET, Call.poll 30 30 GPIO_PIN_RESET,
   Call.poll 100 100 GPIO_PIN_SET, Call.poll 120 120 GPIO_PIN_SET,
   Call.poll 400 400 GPIO_PIN_SET, Call.poll 450 450 GPIO_PIN_RESET]

/-- The configuration of a button: the pin reference (port and pin), the active-level
polarity, and the debounce, long-press and timeout durations. -/
def configOf (Button : Button_t) : Nat × Nat × GPIO_PinState × Nat × Nat × Nat :=
  (Button.btn_gpio, Button.btn_gpio_pin, Button.btn_logic_active,
    Button.btn_tick_debounce, Button.btn_tick_long, Button.btn_tick_timeout)

/-- A button whose long-press duration (10 ms) is below its debounce duration (20 ms). -/
def btnLongBelowDebounce : Button_t := initButton 1073872896 1 GPIO_PIN_SET 20 10 300

/-- A button configured with a timeout duration of zero. -/
def btnNoRetention : Button_t := initButton 1073872896 1 GPIO_PIN_SET 20 500 0

/-- A press first seen on a poll whose clock sample is 4294967290, six ticks before the
32-bit counter rolls over. -/
def pressBeforeRollover : List Call :=
  [Call.poll 4294967290 4294967290 GPIO_PIN_SET]

/-- The press of `pressBeforeRollover`, confirmed on a poll 30 ms later, after the counter
has rolled over to 24. -/
def confirmAfterRollover : List Call :=
  pressBeforeRollover ++ [Call.poll 24 24 GPIO_PIN_SET]

/-- A press seen for the first time on the poll at 0 ms. -/
def firstSeenRun : List Call :=
  [Call.poll 0 0 GPIO_PIN_SET]

/-- A short press seen at 4294967200, confirmed at 4294967220 and released on the poll
whose clock sample is 4294967290, six ticks before the counter rolls over. -/
def releaseBeforeRollover : List Call :=
  [Call.poll 4294967200 4294967200 GPIO_PIN_SET, Call.poll 4294967220 4294967220 GPIO_PIN_SET,
   Call.poll 4294967290 4294967290 GPIO_PIN_RESET]

/-! ## Elapsed time -/

/-- The value of `sub32` is the integer difference reduced modulo `2^32`. -/
theorem sub32_eq_int_emod (a b : Nat) :
    ((sub32 a b : Nat) : Int) = ((a : Int) - (b : Int)) % 4294967296 := by
  unfold sub32 U32
  omega

/-- Without a wraparound between the two samples, `sub32` is the plain difference. -/
theorem sub32_of_le (a b : Nat) (hab : b ≤ a) (ha : a < U32) : sub32 a b = a - b := by
  unfold sub32 U32 at *
  omega

/-! ## The held output -/

/-- C1: the poll on which debounce completes leaves the state `BTN_PRESSED_SHORT` with the
held output still inactive, and the poll that sees the release leaves the state
`BTN_STATE_DEFAULT` with the held output still active: the output is that of the state the
poll started in. -/
theorem held_lags_one_poll :
    (run btn300 confirmRun).btn_state = BTN_PRESSED_SHORT
      ∧ Button_Read_Logic (run btn300 confirmRun) = BTN_INACTIVE
      ∧ (run btn300 shortPressRun).btn_state = BTN_STATE_DEFAULT
      ∧ Button_Read_Logic (run btn300 shortPressRun) = BTN_ACTIVE := by
  decide

/-! ## Reading the latches -/

/-- C2: with the pin inactive, reading a set short latch returns 1 and clears both latches,
after which reading either latch returns 0 (at any pin level, the inactive one included);
the same for a set long latch read with `Button_Read_Long`. -/
theorem read_set_latch_once (B : Button_t) (pin pin2 : GPIO_PinState)
    (hpin : pin ≠ B.btn_logic_active) :
    (B.btn_value_short ≠ 0 →
        (Button_Read_Short B pin).1 = 1
        ∧ (Button_Read_Short B pin).2.btn_value_short = 0
        ∧ (Button_Read_Short B pin).2.btn_value_long = 0
        ∧ (Button_Read_Short (Button_Read_Short B pin).2 pin2).1 = 0
        ∧ (Button_Read_Long (Button_Read_Short B pin).2 pin2).1 = 0)
    ∧ (B.btn_value_long ≠ 0 →
        (Button_Read_Long B pin).1 = 1
        ∧ (Button_Read_Long B pin).2.btn_value_short = 0
        ∧ (Button_Read_Long B pin).2.btn_value_long = 0
        ∧ (Button_Read_Long (Button_Read_Long B pin).2 pin2).1 = 0
        ∧ (Button_Read_Short (Button_Read_Long B pin).2 pin2).1 = 0) := by
  constructor
  · intro hs
    simp [Button_Read_Short, Button_Read_Long, hpin, hs]
  · intro hl
    simp [Button_Read_Short, Button_Read_Long, hpin, hl]

/-- A concrete instance: a released button with both latches set, read twice. -/
theorem read_set_latch_once_witness :
    ((Button_Read_Short { btn300 with btn_value_short := 1, btn_value_long := 1 }
          GPIO_PIN_RESET).1 = 1
      ∧ (Button_Read_Short { btn300 with btn_value_short := 1, btn_value_long := 1 }
          GPIO_PIN_RESET).2.btn_value_short = 0
      ∧ (Button_Read_Short { btn300 with btn_value_short := 1, btn_value_long := 1 }
          GPIO_PIN_RESET).2.btn_value_long = 0
      ∧ (Button_Read_Short (Button_Read_Short
          { btn300 with btn_value_short := 1, btn_value_long := 1 }
          GPIO_PIN_RESET).2 GPIO_PIN_RESET).1 = 0
      ∧ (Button_Read_Long (Button_Read_Short
          { btn300 with btn_value_short := 1, btn_value_long := 1 }
          GPIO_PIN_RESET).2 GPIO_PIN_RESET).1 = 0)
    ∧ ((Button_Read_Long { btn300 with btn_value_short := 1, btn_value_long := 1 }
          GPIO_PIN_RESET).1 = 1
      ∧ (Button_Read_Long { btn300 with btn_value_short := 1, btn_value_long := 1 }
          GPIO_PIN_RESET).2.btn_value_short = 0
      ∧ (Button_Read_Long { btn300 with btn_value_short := 1, btn_value_long := 1 }
          GPIO_PIN_RESET).2.btn_value_long = 0
      ∧ (Button_Read_Long (Button_Read_Long
          { btn300 with btn_value_short := 1, btn_value_long := 1 }
          GPIO_PIN_RESET).2 GPIO_PIN_RESET).1 = 0
      ∧ (Button_Read_Short (Button_Read_Long
          { btn300 with btn_value_short := 1, btn_value_long := 1 }
          GPIO_PIN_RESET).2 GPIO_PIN_RESET).1 = 0) :=
  ⟨(read_set_latch_once { btn300 with btn_value_short := 1, btn_value_long := 1 }
      GPIO_PIN_RESET GPIO_PIN_RESET (by decide)).1 (by decide),
   (read_set_latch_once { btn300 with btn_value_short := 1, btn_value_long := 1 }
      GPIO_PIN_RESET GPIO_PIN_RESET (by decide)).2 (by decide)⟩

/-- C3: while the pin reads the active level, `Button_Read_Short` and `Button_Read_Long`
return 0 and hand back the button exactly as it was, every field included. -/
theorem read_while_active_is_noop (B : Button_t) (pin : GPIO_PinState)
    (hpin : pin = B.btn_logic_active) :
    Button_Read_Short B pin = (0, B) ∧ Button_Read_Long B pin = (0, B) := by
  simp [Button_Read_Short, Button_Read_Long, hpin]

/-- A concrete instance: a held long press with its latch set, read while held. -/
theorem read_while_active_is_noop_witness :
    Button_Read_Short (run btn1000 longHoldRun) GPIO_PIN_SET = (0, run btn1000 longHoldRun)
      ∧ Button_Read_Long (run btn1000 longHoldRun) GPIO_PIN_SET
          = (0, run btn1000 longHoldRun) :=
  read_while_active_is_noop (run btn1000 longHoldRun) GPIO_PIN_SET (by decide)

/-- C4: a button promoted to `BTN_PRESSED_LONG` has its long latch set; once the pin is
inactive, `Button_Read_Long` returns 1, the following `Poll_Button` latches the same press
again, and the second `Button_Read_Long` returns 1 as well. -/
theorem long_press_reported_twice :
    (run btn1000 longHoldRun).btn_state = BTN_PRESSED_LONG
      ∧ (run btn1000 longHoldRun).btn_value_long = 1
      ∧ (Button_Read_Long (run btn1000 longHoldRun) GPIO_PIN_RESET).1 = 1
      ∧ (Button_Read_Long
          (Poll_Button (Button_Read_Long (run btn1000 longHoldRun) GPIO_PIN_RESET).2
            700 700 GPIO_PIN_RESET) GPIO_PIN_RESET).1 = 1 := by
  decide

/-! ## Exclusivity of the latches -/

/-- C5, as stated, fails: with non-decreasing clock samples, a short press that is never
read followed by a long press within the retention time leaves both latches set. -/
theorem both_latches_set_after_unread_short :
    (clockSamples shortThenLongRun).Pairwise (· ≤ ·)
      ∧ (run btn10000 shortThenLongRun).btn_value_short = 1
      ∧ (run btn10000 shortThenLongRun).btn_value_long = 1 := by
  decide

/-- A read leaves `latchInv` in place. -/
theorem latchInv_read (B : Button_t) (pin : GPIO_PinState) (h : latchInv B) :
    latchInv (Button_Read_Short B pin).2 ∧ latchInv (Button_Read_Long B pin).2 := by
  unfold latchInv at *
  unfold Button_Read_Short Button_Read_Long
  constructor <;> split_ifs <;> simp_all

/-- What `Button_Timeout` keeps: every field except the two latches. -/
theorem Button_Timeout_frame (X : Button_t) :
    (Button_Timeout X).btn_gpio = X.btn_gpio
      ∧ (Button_Timeout X).btn_gpio_pin = X.btn_gpio_pin
      ∧ (Button_Timeout X).btn_logic_active = X.btn_logic_active
      ∧ (Button_Timeout X).btn_tick_debounce = X.btn_tick_debounce
      ∧ (Button_Timeout X).btn_tick_long = X.btn_tick_long
      ∧ (Button_Timeout X).btn_tick_timeout = X.btn_tick_timeout
      ∧ (Button_Timeout X).btn_state = X.btn_state
      ∧ (Button_Timeout X).btn_tick_present = X.btn_tick_present
      ∧ (Button_Timeout X).btn_tick_debounce_start = X.btn_tick_debounce_start
      ∧ (Button_Timeout X).btn_tick_timeout_start = X.btn_tick_timeout_start
      ∧ (Button_Timeout X).btn_logic_state = X.btn_logic_state := by
  unfold Button_Timeout
  split_ifs <;> simp

/-- What `Button_Timeout` does to the latches: it keeps both or clears both. -/
theorem Button_Timeout_latches (X : Button_t) :
    ((Button_Timeout X).btn_value_short = X.btn_value_short
        ∧ (Button_Timeout X).btn_value_long = X.btn_value_long)
      ∨ ((Button_Timeout X).btn_value_short = 0 ∧ (Button_Timeout X).btn_value_long = 0) := by
  unfold Button_Timeout
  split_ifs <;> simp

/-- A poll that is not a `staleLatchPoll` leaves `latchInv` in place. -/
theorem latchInv_poll (B : Button_t) (tick0 tick1 : Nat) (pin : GPIO_PinState)
    (h : latchInv B) (hs : ¬ staleLatchPoll B (Call.poll tick0 tick1 pin)) :
    latchInv (Poll_Button B tick0 tick1 pin) := by
  have hf := Button_Timeout_frame { B with btn_tick_present := tick0 }
  have hl := Button_Timeout_latches { B with btn_tick_present := tick0 }
  simp only [staleLatchPoll] at hs
  simp only [Poll_Button]
  generalize Button_Timeout { B with btn_tick_present := tick0 } = T at hf hl hs ⊢
  obtain ⟨-, -, hact, -, hlong, -, hst, hpres, hds, -, -⟩ := hf
  simp only at hact hlong hst hpres hds hl
  unfold latchInv at *
  obtain ⟨h1, h2⟩ := h
  rw [hst, hact, hlong, hpres, hds]
  simp only [BTN_STATE_DEFAULT, BTN_PRESSED_DEBOUNCING, BTN_PRESSED_SHORT,
    BTN_PRESSED_LONG] at *
  split_ifs with c1 c2 c3 c4 c5 c6 c7 c8 c9 <;> simp only [] <;>
    refine ⟨?_, fun h3 => ?_⟩ <;>
    first
      | omega
      | exact False.elim h3
      | (have hz : T.btn_value_short = 0 := by
          by_contra hc
          exact hs ⟨by assumption, Or.inl ⟨by assumption, by assumption, hc⟩⟩
         omega)
      | (have hz : T.btn_value_long = 0 := by
          by_contra hc
          exact hs ⟨by assumption, Or.inr ⟨by assumption, hc⟩⟩
         omega)

/-- Taking one more call of a run: the head is applied first. -/
theorem run_cons (B : Button_t) (c : Call) (calls : List Call) :
    run B (c :: calls) = run (step B c) calls := rfl

/-- The invariant `latchInv` holds along a run none of whose calls is a `staleLatchPoll`
of the state it is made in. -/
theorem latchInv_run (calls : List Call) (B : Button_t) (h : latchInv B)
    (hs : ∀ i : Fin calls.length, ¬ staleLatchPoll (run B (calls.take i.val)) (calls.get i)) :
    latchInv (run B calls) := by
  induction calls generalizing B with
  | nil => exact h
  | cons c calls ih =>
    rw [run_cons]
    apply ih
    · have h0 := hs ⟨0, by simp⟩
      cases c with
      | poll tick0 tick1 pin => exact latchInv_poll B tick0 tick1 pin h h0
      | readShort pin => exact (latchInv_read B pin h).1
      | readLong pin => exact (latchInv_read B pin h).2
    · intro i
      have := hs ⟨i.val + 1, by simp⟩
      simpa [List.take_succ_cons, run_cons] using this

/-- C5, amended: from the zero-initialised button, for every configuration and every
sequence of polls and reads (any pin levels, any clock values), the two latches are not
both set after the sequence, provided no poll of the sequence finds the button in
`BTN_PRESSED_SHORT` and either promotes it to `BTN_PRESSED_LONG` while the short latch is
still set once the timeout rule of that poll has run, or sees its release while the long
latch is still set once the timeout rule of that poll has run. Reads and all other polls
are unconstrained. -/
theorem latches_exclusive_without_stale_latch (gpio gpio_pin : Nat) (active : GPIO_PinState)
    (debounce long timeout : Nat) (calls : List Call)
    (hs : ∀ i : Fin calls.length,
      ¬ staleLatchPoll
          (run (initButton gpio gpio_pin active debounce long timeout) (calls.take i.val))
          (calls.get i)) :
    ¬ ((run (initButton gpio gpio_pin active debounce long timeout) calls).btn_value_short ≠ 0
        ∧ (run (initButton gpio gpio_pin active debounce long timeout)
            calls).btn_value_long ≠ 0) := by
  have hinit : latchInv (initButton gpio gpio_pin active debounce long timeout) := by
    unfold latchInv initButton Button_Init zeroButton
    split_ifs <;> simp
  have := (latchInv_run calls _ hinit hs).1
  omega

/-- A concrete instance: a second press is confirmed while the unread result of the first
is still latched, the result expires during the hold, and the second press is released. -/
theorem latches_exclusive_without_stale_latch_witness :
    (∀ i : Fin expiredBeforeReleaseRun.length,
      ¬ staleLatchPoll
          (run (initButton 1073872896 1 GPIO_PIN_SET 20 500 300)
            (expiredBeforeReleaseRun.take i.val))
          (expiredBeforeReleaseRun.get i))
    ∧ (run (initButton 1073872896 1 GPIO_PIN_SET 20 500 300)
          (expiredBeforeReleaseRun.take 5)).btn_state = BTN_PRESSED_SHORT
    ∧ (run (initButton 1073872896 1 GPIO_PIN_SET 20 500 300)
          (expiredBeforeReleaseRun.take 5)).btn_value_short = 1
    ∧ ¬ ((run (initButton 1073872896 1 GPIO_PIN_SET 20 500 300)
            expiredBeforeReleaseRun).btn_value_short ≠ 0
        ∧ (run (initButton 1073872896 1 GPIO_PIN_SET 20 500 300)
            expiredBeforeReleaseRun).btn_value_long ≠ 0) :=
  ⟨by decide, by decide, by decide,
   latches_exclusive_without_stale_latch 1073872896 1 GPIO_PIN_SET 20 500 300
     expiredBeforeReleaseRun (by decide)⟩

/-! ## Poll_Button, state by state -/

/-- The case `BTN_STATE_DEFAULT` of `Poll_Button` (button.c 162-171). -/
theorem Poll_Button_default (B : Button_t) (tick0 tick1 : Nat) (pin : GPIO_PinState)
    (hst : B.btn_state = BTN_STATE_DEFAULT) :
    Poll_Button B tick0 tick1 pin =
      if pin = B.btn_logic_active then
        { Button_Timeout { B with btn_tick_present := tick0 } with
          btn_logic_state := 0, btn_tick_debounce_start := tick1,
          btn_state := BTN_PRESSED_DEBOUNCING }
      else
        { Button_Timeout { B with btn_tick_present := tick0 } with
          btn_logic_state := 0, btn_state := BTN_STATE_DEFAULT } := by
  have hf := Button_Timeout_frame { B with btn_tick_present := tick0 }
  simp only [Poll_Button]
  generalize Button_Timeout { B with btn_tick_present := tick0 } = T at hf ⊢
  obtain ⟨-, -, hact, hdeb, hlong, -, hstT, hpres, hds, -, -⟩ := hf
  simp only at hact hdeb hlong hstT hpres hds
  simp only [hact, hdeb, hlong, hstT, hpres, hds, hst, BTN_STATE_DEFAULT,
    BTN_PRESSED_DEBOUNCING, BTN_PRESSED_SHORT, BTN_PRESSED_LONG]
  split_ifs <;> simp_all

/-- The case `BTN_PRESSED_DEBOUNCING` of `Poll_Button` (button.c 173-187). -/
theorem Poll_Button_debouncing (B : Button_t) (tick0 tick1 : Nat) (pin : GPIO_PinState)
    (hst : B.btn_state = BTN_PRESSED_DEBOUNCING) :
    Poll_Button B tick0 tick1 pin =
      if pin = B.btn_logic_active then
        if sub32 tick0 B.btn_tick_debounce_start ≥ B.btn_tick_debounce then
          { Button_Timeout { B with btn_tick_present := tick0 } with
            btn_logic_state := 0, btn_state := BTN_PRESSED_SHORT }
        else
          { Button_Timeout { B with btn_tick_present := tick0 } with
            btn_logic_state := 0, btn_state := BTN_PRESSED_DEBOUNCING }
      else
        { Button_Timeout { B with btn_tick_present := tick0 } with
          btn_logic_state := 0, btn_state := BTN_STATE_DEFAULT } := by
  have hf := Button_Timeout_frame { B with btn_tick_present := tick0 }
  simp only [Poll_Button]
  generalize Button_Timeout { B with btn_tick_present := tick0 } = T at hf ⊢
  obtain ⟨-, -, hact, hdeb, hlong, -, hstT, hpres, hds, -, -⟩ := hf
  simp only at hact hdeb hlong hstT hpres hds
  simp only [hact, hdeb, hlong, hstT, hpres, hds, hst, BTN_STATE_DEFAULT,
    BTN_PRESSED_DEBOUNCING, BTN_PRESSED_SHORT, BTN_PRESSED_LONG]
  split_ifs <;> simp_all

/-- The case `BTN_PRESSED_SHORT` of `Poll_Button` (button.c 189-208). -/
theorem Poll_Button_short (B : Button_t) (tick0 tick1 : Nat) (pin : GPIO_PinState)
    (hst : B.btn_state = BTN_PRESSED_SHORT) :
    Poll_Button B tick0 tick1 pin =
      if pin = B.btn_logic_active then
        if sub32 tick0 B.btn_tick_debounce_start ≥ B.btn_tick_long then
          { Button_Timeout { B with btn_tick_present := tick0 } with
            btn_logic_state := 1, btn_value_long := 1, btn_state := BTN_PRESSED_LONG }
        else
          { Button_Timeout { B with btn_tick_present := tick0 } with
            btn_logic_state := 1, btn_state := BTN_PRESSED_SHORT }
      else
        if (Button_Timeout { B with btn_tick_present := tick0 }).btn_value_short = 0 then
          { Button_Timeout { B with btn_tick_present := tick0 } with
            btn_logic_state := 1, btn_tick_timeout_start := tick1, btn_value_short := 1,
            btn_state := BTN_STATE_DEFAULT }
        else
          { Button_Timeout { B with btn_tick_present := tick0 } with
            btn_logic_state := 1, btn_state := BTN_STATE_DEFAULT } := by
  have hf := Button_Timeout_frame { B with btn_tick_present := tick0 }
  simp only [Poll_Button]
  generalize Button_Timeout { B with btn_tick_present := tick0 } = T at hf ⊢
  obtain ⟨-, -, hact, hdeb, hlong, -, hstT, hpres, hds, -, -⟩ := hf
  simp only at hact hdeb hlong hstT hpres hds
  simp only [hact, hdeb, hlong, hstT, hpres, hds, hst, BTN_STATE_DEFAULT,
    BTN_PRESSED_DEBOUNCING, BTN_PRESSED_SHORT, BTN_PRESSED_LONG]
  split_ifs <;> simp_all

/-- The case `BTN_PRESSED_LONG` of `Poll_Button` (button.c 210-222). -/
theorem Poll_Button_long (B : Button_t) (tick0 tick1 : Nat) (pin : GPIO_PinState)
    (hst : B.btn_state = BTN_PRESSED_LONG) :
    Poll_Button B tick0 tick1 pin =
      if pin = B.btn_logic_active then
        { Button_Timeout { B with btn_tick_present := tick0 } with
          btn_logic_state := 1, btn_state := BTN_PRESSED_LONG }
      else
        if (Button_Timeout { B with btn_tick_present := tick0 }).btn_value_long = 0 then
          { Button_Timeout { B with btn_tick_present := tick0 } with
            btn_logic_state := 1, btn_tick_timeout_start := tick1, btn_value_long := 1,
            btn_state := BTN_STATE_DEFAULT }
        else
          { Button_Timeout { B with btn_tick_present := tick0 } with
            btn_logic_state := 1, btn_state := BTN_STATE_DEFAULT } := by
  have hf := Button_Timeout_frame { B with btn_tick_present := tick0 }
  simp only [Poll_Button]
  generalize Button_Timeout { B with btn_tick_present := tick0 } = T at hf ⊢
  obtain ⟨-, -, hact, hdeb, hlong, -, hstT, hpres, hds, -, -⟩ := hf
  simp only at hact hdeb hlong hstT hpres hds
  simp only [hact, hdeb, hlong, hstT, hpres, hds, hst, BTN_STATE_DEFAULT,
    BTN_PRESSED_DEBOUNCING, BTN_PRESSED_SHORT, BTN_PRESSED_LONG]
  split_ifs <;> simp_all

/-! ## Retention of a released long press -/

/-- C6: a long press promoted at 600 ms and released at 700 ms, with results kept 1000 ms:
the release does not restart the retention window (`btn_tick_timeout_start` is still 0),
and the poll at 1000 ms, 300 ms after the release and with no read in between, clears the
long latch, so `Button_Read_Long` returns 0. -/
theorem long_result_expires_early :
    (run btn1000 longHoldRun).btn_state = BTN_PRESSED_LONG
      ∧ (run btn1000 longReleaseRun).btn_state = BTN_STATE_DEFAULT
      ∧ (run btn1000 longReleaseRun).btn_value_long = 1
      ∧ (run btn1000 longReleaseRun).btn_tick_timeout_start = 0
      ∧ 1000 - 700 < btn1000.btn_tick_timeout
      ∧ (run btn1000 longExpiredRun).btn_value_long = 0
      ∧ (Button_Read_Long (run btn1000 longExpiredRun) GPIO_PIN_RESET).1 = 0 := by
  decide

/-! ## The timeout rule -/

/-- C7: in `BTN_STATE_DEFAULT` with a latch set and the pin inactive, a poll whose clock
sample `tick0` has `(tick0 - btn_tick_timeout_start) mod 2^32 ≥ btn_tick_timeout` leaves
both latches clear, so both reads then return 0 at any pin level; a poll with the elapsed
time below `btn_tick_timeout` leaves both latches as they were. -/
theorem timeout_rule_in_default (B : Button_t) (tick0 tick1 : Nat) (pin : GPIO_PinState)
    (hst : B.btn_state = BTN_STATE_DEFAULT)
    (hlatch : B.btn_value_short ≠ 0 ∨ B.btn_value_long ≠ 0)
    (hpin : pin ≠ B.btn_logic_active) :
    (sub32 tick0 B.btn_tick_timeout_start ≥ B.btn_tick_timeout →
        (Poll_Button B tick0 tick1 pin).btn_value_short = 0
        ∧ (Poll_Button B tick0 tick1 pin).btn_value_long = 0
        ∧ ∀ p : GPIO_PinState,
            (Button_Read_Short (Poll_Button B tick0 tick1 pin) p).1 = 0
            ∧ (Button_Read_Long (Poll_Button B tick0 tick1 pin) p).1 = 0)
    ∧ (sub32 tick0 B.btn_tick_timeout_start < B.btn_tick_timeout →
        (Poll_Button B tick0 tick1 pin).btn_value_short = B.btn_value_short
        ∧ (Poll_Button B tick0 tick1 pin).btn_value_long = B.btn_value_long) := by
  rw [Poll_Button_default B tick0 tick1 pin hst, if_neg hpin]
  constructor
  · intro h
    have hT : Button_Timeout { B with btn_tick_present := tick0 }
        = { B with btn_tick_present := tick0, btn_value_short := 0, btn_value_long := 0 } := by
      unfold Button_Timeout
      rw [if_pos hlatch, if_pos h]
    rw [hT]
    simp [Button_Read_Short, Button_Read_Long]
  · intro h
    have hT : Button_Timeout { B with btn_tick_present := tick0 }
        = { B with btn_tick_present := tick0 } := by
      unfold Button_Timeout
      rw [if_pos hlatch, if_neg (by simpa using h)]
    rw [hT]
    simp

/-- A concrete instance: the short press released at 30 ms, polled at 330 ms (expired)
and at 329 ms (kept). -/
theorem timeout_rule_in_default_witness :
    ((Poll_Button (run btn300 shortPressRun) 330 330 GPIO_PIN_RESET).btn_value_short = 0
        ∧ (Poll_Button (run btn300 shortPressRun) 330 330 GPIO_PIN_RESET).btn_value_long = 0
        ∧ ∀ p : GPIO_PinState,
            (Button_Read_Short
              (Poll_Button (run btn300 shortPressRun) 330 330 GPIO_PIN_RESET) p).1 = 0
            ∧ (Button_Read_Long
              (Poll_Button (run btn300 shortPressRun) 330 330 GPIO_PIN_RESET) p).1 = 0)
    ∧ ((Poll_Button (run btn300 shortPressRun) 329 329 GPIO_PIN_RESET).btn_value_short
          = (run btn300 shortPressRun).btn_value_short
        ∧ (Poll_Button (run btn300 shortPressRun) 329 329 GPIO_PIN_RESET).btn_value_long
          = (run btn300 shortPressRun).btn_value_long) :=
  ⟨(timeout_rule_in_default (run btn300 shortPressRun) 330 330 GPIO_PIN_RESET
      (by decide) (by decide) (by decide)).1 (by decide),
   (timeout_rule_in_default (run btn300 shortPressRun) 329 329 GPIO_PIN_RESET
      (by decide) (by decide) (by decide)).2 (by decide)⟩

/-! ## Rejecting a bounce -/

/-- The held output is false exactly when `btn_logic_state` is 0. -/
theorem not_held_iff (B : Button_t) : ¬ held B ↔ B.btn_logic_state = 0 := by
  unfold held Button_Read_Logic BTN_INACTIVE
  exact not_not

/-- A poll in `BTN_STATE_DEFAULT` or `BTN_PRESSED_DEBOUNCING` sets no latch and leaves the
held output false. -/
theorem Poll_Button_quiet (B : Button_t) (tick0 tick1 : Nat) (pin : GPIO_PinState)
    (hst : B.btn_state = BTN_STATE_DEFAULT ∨ B.btn_state = BTN_PRESSED_DEBOUNCING) :
    (B.btn_value_short = 0 → (Poll_Button B tick0 tick1 pin).btn_value_short = 0)
      ∧ (B.btn_value_long = 0 → (Poll_Button B tick0 tick1 pin).btn_value_long = 0)
      ∧ ¬ held (Poll_Button B tick0 tick1 pin) := by
  have hl := Button_Timeout_latches { B with btn_tick_present := tick0 }
  simp only at hl
  rw [not_held_iff]
  rcases hst with hst | hst
  · rw [Poll_Button_default B tick0 tick1 pin hst]
    split_ifs <;> simp only [] <;> refine ⟨fun h => ?_, fun h => ?_, trivial⟩ <;> omega
  · rw [Poll_Button_debouncing B tick0 tick1 pin hst]
    split_ifs <;> simp only [] <;> refine ⟨fun h => ?_, fun h => ?_, trivial⟩ <;> omega

/-- A poll in `BTN_PRESSED_DEBOUNCING` with the pin active and the elapsed time below the
debounce duration stays there and keeps the configuration and `btn_tick_debounce_start`. -/
theorem Poll_Button_debouncing_stay (B : Button_t) (tick0 tick1 : Nat)
    (hst : B.btn_state = BTN_PRESSED_DEBOUNCING)
    (hel : sub32 tick0 B.btn_tick_debounce_start < B.btn_tick_debounce) :
    (Poll_Button B tick0 tick1 B.btn_logic_active).btn_state = BTN_PRESSED_DEBOUNCING
      ∧ (Poll_Button B tick0 tick1 B.btn_logic_active).btn_tick_debounce_start
          = B.btn_tick_debounce_start
      ∧ (Poll_Button B tick0 tick1 B.btn_logic_active).btn_logic_active = B.btn_logic_active
      ∧ (Poll_Button B tick0 tick1 B.btn_logic_active).btn_tick_debounce
          = B.btn_tick_debounce := by
  have hf := Button_Timeout_frame { B with btn_tick_present := tick0 }
  simp only at hf
  rw [Poll_Button_debouncing B tick0 tick1 _ hst, if_pos rfl, if_neg (by omega)]
  simp only [hf, and_self]

/-- The polls of a bounce after the first one: the button stays in
`BTN_PRESSED_DEBOUNCING` until the inactive poll returns it to `BTN_STATE_DEFAULT`. -/
theorem debouncing_phase (more : List (Nat × Nat)) (B : Button_t) (inactive : GPIO_PinState)
    (last0 last1 start : Nat)
    (hst : B.btn_state = BTN_PRESSED_DEBOUNCING)
    (hstart : B.btn_tick_debounce_start = start)
    (hpin : inactive ≠ B.btn_logic_active)
    (hel : ∀ p ∈ more, sub32 p.1 start < B.btn_tick_debounce) (calls : List Call)
    (hcalls : calls = more.map (fun p => Call.poll p.1 p.2 B.btn_logic_active)
        ++ [Call.poll last0 last1 inactive]) :
    (∀ n, n < calls.length →
        ((run B (calls.take n)).btn_value_short = 0 →
            (run B (calls.take (n + 1))).btn_value_short = 0)
        ∧ ((run B (calls.take n)).btn_value_long = 0 →
            (run B (calls.take (n + 1))).btn_value_long = 0)
        ∧ ¬ held (run B (calls.take (n + 1))))
      ∧ (∀ n, n ≤ more.length →
          (run B (calls.take n)).btn_state = BTN_PRESSED_DEBOUNCING
          ∧ (run B (calls.take n)).btn_tick_debounce_start = start)
      ∧ (run B calls).btn_state = BTN_STATE_DEFAULT := by
  induction more generalizing B calls with
  | nil =>
    subst hcalls
    have hq := Poll_Button_quiet B last0 last1 inactive (Or.inr hst)
    refine ⟨fun n hn => ?_, fun n hn => ?_, ?_⟩
    · have hn0 : n = 0 := by simpa using hn
      subst hn0
      simpa [run, step] using hq
    · have hn0 : n = 0 := by simpa using hn
      subst hn0
      exact ⟨hst, hstart⟩
    · simp only [List.map_nil, List.nil_append, run, List.foldl, step]
      rw [Poll_Button_debouncing B last0 last1 inactive hst, if_neg hpin]
  | cons p more ih =>
    have hp : sub32 p.1 B.btn_tick_debounce_start < B.btn_tick_debounce := by
      rw [hstart]; exact hel p (List.mem_cons_self _ _)
    obtain ⟨s1, s2, s3, s4⟩ := Poll_Button_debouncing_stay B p.1 p.2 hst hp
    have hq := Poll_Button_quiet B p.1 p.2 B.btn_logic_active (Or.inr hst)
    have hrec := ih (Poll_Button B p.1 p.2 B.btn_logic_active) s1 (s2.trans hstart)
      (by rw [s3]; exact hpin)
      (by rw [s4]; exact fun q hq => hel q (List.mem_cons_of_mem _ hq))
      (more.map (fun p => Call.poll p.1 p.2 B.btn_logic_active)
        ++ [Call.poll last0 last1 inactive]) (by rw [s3])
    subst hcalls
    obtain ⟨r1, r2, r3⟩ := hrec
    refine ⟨fun n hn => ?_, fun n hn => ?_, ?_⟩
    · cases n with
      | zero => simpa [run, step] using hq
      | succ k =>
        have hk := r1 k (by simpa using hn)
        simpa [List.take_succ_cons, run_cons, step] using hk
    · cases n with
      | zero => exact ⟨hst, hstart⟩
      | succ k =>
        have hk := r2 k (by simpa using hn)
        simpa [List.take_succ_cons, run_cons, step] using hk
    · simpa [run_cons, step] using r3

/-- C8: a bounce is rejected without visible effect. From `BTN_STATE_DEFAULT` with the
held output false, let the pin read active on a first poll (which records
`btn_tick_debounce_start = tick1`) and on the polls of `more`, each with
`(now - btn_tick_debounce_start) mod 2^32` below the debounce duration, and then inactive
on a last poll. Then the held output is false before and after every poll, no poll sets a
latch that was clear before it, the button is in `BTN_PRESSED_DEBOUNCING` with
`btn_tick_debounce_start = tick1` after each active poll, and the final state is
`BTN_STATE_DEFAULT`. -/
theorem bounce_rejected (B : Button_t) (inactive : GPIO_PinState) (tick0 tick1 : Nat)
    (more : List (Nat × Nat)) (last0 last1 : Nat)
    (hst : B.btn_state = BTN_STATE_DEFAULT) (hheld : ¬ held B)
    (hpin : inactive ≠ B.btn_logic_active)
    (hel : ∀ p ∈ more, sub32 p.1 tick1 < B.btn_tick_debounce) :
    (∀ n, n ≤ (bounceRun B.btn_logic_active inactive tick0 tick1 more last0 last1).length →
        ¬ held (run B
          ((bounceRun B.btn_logic_active inactive tick0 tick1 more last0 last1).take n)))
      ∧ (∀ n, n < (bounceRun B.btn_logic_active inactive tick0 tick1 more last0 last1).length →
        ((run B ((bounceRun B.btn_logic_active inactive tick0 tick1 more last0 last1).take
              n)).btn_value_short = 0 →
          (run B ((bounceRun B.btn_logic_active inactive tick0 tick1 more last0 last1).take
              (n + 1))).btn_value_short = 0)
        ∧ ((run B ((bounceRun B.btn_logic_active inactive tick0 tick1 more last0 last1).take
              n)).btn_value_long = 0 →
          (run B ((bounceRun B.btn_logic_active inactive tick0 tick1 more last0 last1).take
              (n + 1))).btn_value_long = 0))
      ∧ (∀ n, 1 ≤ n → n ≤ more.length + 1 →
        (run B ((bounceRun B.btn_logic_active inactive tick0 tick1 more last0 last1).take
            n)).btn_state = BTN_PRESSED_DEBOUNCING
        ∧ (run B ((bounceRun B.btn_logic_active inactive tick0 tick1 more last0 last1).take
            n)).btn_tick_debounce_start = tick1)
      ∧ (run B (bounceRun B.btn_logic_active inactive tick0 tick1 more last0 last1)).btn_state
          = BTN_STATE_DEFAULT := by
  have hf := Button_Timeout_frame { B with btn_tick_present := tick0 }
  simp only at hf
  have hB1 : Poll_Button B tick0 tick1 B.btn_logic_active =
      { Button_Timeout { B with btn_tick_present := tick0 } with
        btn_logic_state := 0, btn_tick_debounce_start := tick1,
        btn_state := BTN_PRESSED_DEBOUNCING } := by
    rw [Poll_Button_default B tick0 tick1 _ hst, if_pos rfl]
  have hq := Poll_Button_quiet B tick0 tick1 B.btn_logic_active (Or.inl hst)
  have hact : (Poll_Button B tick0 tick1 B.btn_logic_active).btn_logic_active
      = B.btn_logic_active := by rw [hB1]; exact hf.2.2.1
  have hdeb : (Poll_Button B tick0 tick1 B.btn_logic_active).btn_tick_debounce
      = B.btn_tick_debounce := by rw [hB1]; exact hf.2.2.2.1
  obtain ⟨r1, r2, r3⟩ := debouncing_phase more (Poll_Button B tick0 tick1 B.btn_logic_active)
    inactive last0 last1 tick1 (by rw [hB1]) (by rw [hB1]) (by rw [hact]; exact hpin)
    (by rw [hdeb]; exact hel)
    (more.map (fun p => Call.poll p.1 p.2 B.btn_logic_active)
      ++ [Call.poll last0 last1 inactive]) (by rw [hact])
  have hstep : ∀ n,
      n < (bounceRun B.btn_logic_active inactive tick0 tick1 more last0 last1).length →
      ((run B ((bounceRun B.btn_logic_active inactive tick0 tick1 more last0 last1).take
            n)).btn_value_short = 0 →
        (run B ((bounceRun B.btn_logic_active inactive tick0 tick1 more last0 last1).take
            (n + 1))).btn_value_short = 0)
      ∧ ((run B ((bounceRun B.btn_logic_active inactive tick0 tick1 more last0 last1).take
            n)).btn_value_long = 0 →
        (run B ((bounceRun B.btn_logic_active inactive tick0 tick1 more last0 last1).take
            (n + 1))).btn_value_long = 0)
      ∧ ¬ held (run B
          ((bounceRun B.btn_logic_active inactive tick0 tick1 more last0 last1).take
            (n + 1))) := by
    intro n hn
    cases n with
    | zero => simpa [bounceRun, run, step] using hq
    | succ k =>
      have hk := r1 k (by simpa [bounceRun] using hn)
      simpa [bounceRun, List.take_succ_cons, run_cons, step] using hk
  refine ⟨fun n hn => ?_, fun n hn => ⟨(hstep n hn).1, (hstep n hn).2.1⟩, fun n h1 hn => ?_, ?_⟩
  · cases n with
    | zero => simpa [run] using hheld
    | succ k => exact (hstep k (by omega)).2.2
  · cases n with
    | zero => omega
    | succ k =>
      have hk := r2 k (by omega)
      simpa [bounceRun, List.take_succ_cons, run_cons, step] using hk
  · simpa [bounceRun, run_cons, step] using r3

/-- A concrete instance: contact noise seen on the polls at 0, 5 and 10 ms and
gone on the poll at 15 ms, with a debounce duration of 20 ms. -/
theorem bounce_rejected_witness :
    (∀ n, n ≤ (bounceRun GPIO_PIN_SET GPIO_PIN_RESET 0 0 [(5, 5), (10, 10)] 15 15).length →
        ¬ held (run btn300
          ((bounceRun GPIO_PIN_SET GPIO_PIN_RESET 0 0 [(5, 5), (10, 10)] 15 15).take n)))
      ∧ (∀ n, n < (bounceRun GPIO_PIN_SET GPIO_PIN_RESET 0 0 [(5, 5), (10, 10)] 15 15).length →
        ((run btn300 ((bounceRun GPIO_PIN_SET GPIO_PIN_RESET 0 0 [(5, 5), (10, 10)] 15 15).take
              n)).btn_value_short = 0 →
          (run btn300 ((bounceRun GPIO_PIN_SET GPIO_PIN_RESET 0 0 [(5, 5), (10, 10)] 15 15).take
              (n + 1))).btn_value_short = 0)
        ∧ ((run btn300 ((bounceRun GPIO_PIN_SET GPIO_PIN_RESET 0 0 [(5, 5), (10, 10)] 15 15).take
              n)).btn_value_long = 0 →
          (run btn300 ((bounceRun GPIO_PIN_SET GPIO_PIN_RESET 0 0 [(5, 5), (10, 10)] 15 15).take
              (n + 1))).btn_value_long = 0))
      ∧ (∀ n, 1 ≤ n → n ≤ [((5 : Nat), (5 : Nat)), (10, 10)].length + 1 →
        (run btn300 ((bounceRun GPIO_PIN_SET GPIO_PIN_RESET 0 0 [(5, 5), (10, 10)] 15 15).take
            n)).btn_state = BTN_PRESSED_DEBOUNCING
        ∧ (run btn300 ((bounceRun GPIO_PIN_SET GPIO_PIN_RESET 0 0 [(5, 5), (10, 10)] 15 15).take
            n)).btn_tick_debounce_start = 0)
      ∧ (run btn300 (bounceRun GPIO_PIN_SET GPIO_PIN_RESET 0 0 [(5, 5), (10, 10)] 15 15)).btn_state
          = BTN_STATE_DEFAULT :=
  bounce_rejected btn300 GPIO_PIN_RESET 0 0 [(5, 5), (10, 10)] 15 15
    (by decide) (by decide) (by decide) (by decide)

/-! ## Leaving BTN_PRESSED_SHORT -/

/-- The release of a short press, for independent clock samples: in `BTN_PRESSED_SHORT`
with both latches clear, a poll that reads the pin inactive leaves the state
`BTN_STATE_DEFAULT`, the short latch set and the long latch clear; it caches the first
sample in `btn_tick_present` and writes the second one to `btn_tick_timeout_start`. -/
theorem Poll_Button_short_release (B : Button_t) (tick0 tick1 : Nat) (pin : GPIO_PinState)
    (hst : B.btn_state = BTN_PRESSED_SHORT)
    (hshort : B.btn_value_short = 0) (hlong : B.btn_value_long = 0)
    (hpin : pin ≠ B.btn_logic_active) :
    (Poll_Button B tick0 tick1 pin).btn_state = BTN_STATE_DEFAULT
      ∧ (Poll_Button B tick0 tick1 pin).btn_value_short = 1
      ∧ (Poll_Button B tick0 tick1 pin).btn_value_long = 0
      ∧ (Poll_Button B tick0 tick1 pin).btn_tick_present = tick0
      ∧ (Poll_Button B tick0 tick1 pin).btn_tick_timeout_start = tick1 := by
  have hT : Button_Timeout { B with btn_tick_present := tick0 }
      = { B with btn_tick_present := tick0 } := by
    unfold Button_Timeout
    rw [if_neg (by simp [hshort, hlong])]
  rw [Poll_Button_short B tick0 tick1 pin hst, if_neg hpin, hT, if_pos hshort]
  exact ⟨rfl, rfl, hlong, rfl, rfl⟩

/-- C9: the confirmed press of `confirmRun` is in `BTN_PRESSED_SHORT` with both latches
clear. The poll that samples the clock at 30 and reads the pin inactive leaves the state
`BTN_STATE_DEFAULT`, the short latch set and the long latch clear, but when the clock
advances to 31 before the timestamp is taken, `btn_tick_timeout_start` is 31, not the
sampled 30. -/
theorem short_release_stamp_is_later_sample :
    (run btn300 confirmRun).btn_state = BTN_PRESSED_SHORT
      ∧ (run btn300 confirmRun).btn_value_short = 0
      ∧ (run btn300 confirmRun).btn_value_long = 0
      ∧ (Poll_Button (run btn300 confirmRun) 30 31 GPIO_PIN_RESET).btn_state
          = BTN_STATE_DEFAULT
      ∧ (Poll_Button (run btn300 confirmRun) 30 31 GPIO_PIN_RESET).btn_value_short = 1
      ∧ (Poll_Button (run btn300 confirmRun) 30 31 GPIO_PIN_RESET).btn_value_long = 0
      ∧ (Poll_Button (run btn300 confirmRun) 30 31 GPIO_PIN_RESET).btn_tick_present = 30
      ∧ (Poll_Button (run btn300 confirmRun) 30 31 GPIO_PIN_RESET).btn_tick_timeout_start
          = 31 := by
  decide

/-- C10: in `BTN_PRESSED_SHORT`, a poll that reads the pin active leaves the state
`BTN_PRESSED_LONG` exactly when `(now - btn_tick_debounce_start) mod 2^32` has reached the
long-press duration, `now` being the clock sample of that same poll, and leaves it
`BTN_PRESSED_SHORT` otherwise; in both cases a short latch that was clear stays clear. -/
theorem short_held_promotion (B : Button_t) (tick0 tick1 : Nat) (pin : GPIO_PinState)
    (hst : B.btn_state = BTN_PRESSED_SHORT) (hpin : pin = B.btn_logic_active) :
    ((Poll_Button B tick0 tick1 pin).btn_state = BTN_PRESSED_LONG
        ↔ sub32 tick0 B.btn_tick_debounce_start ≥ B.btn_tick_long)
      ∧ (¬ sub32 tick0 B.btn_tick_debounce_start ≥ B.btn_tick_long →
          (Poll_Button B tick0 tick1 pin).btn_state = BTN_PRESSED_SHORT)
      ∧ (B.btn_value_short = 0 → (Poll_Button B tick0 tick1 pin).btn_value_short = 0) := by
  have hl := Button_Timeout_latches { B with btn_tick_present := tick0 }
  simp only at hl
  rw [Poll_Button_short B tick0 tick1 pin hst, if_pos hpin]
  split_ifs with h
  · refine ⟨⟨fun _ => h, fun _ => rfl⟩, fun hn => absurd h hn, fun h0 => ?_⟩
    simp only []
    omega
  · refine ⟨⟨fun hc => ?_, fun hc => absurd hc h⟩, fun _ => rfl, fun h0 => ?_⟩
    · simp [BTN_PRESSED_SHORT, BTN_PRESSED_LONG] at hc
    · simp only []
      omega

/-- A concrete instance: the confirmed press of `confirmRun` (seen at 0 ms), still held
on a poll at 500 ms. -/
theorem short_held_promotion_witness :
    ((Poll_Button (run btn300 confirmRun) 500 500 GPIO_PIN_SET).btn_state = BTN_PRESSED_LONG
        ↔ sub32 500 (run btn300 confirmRun).btn_tick_debounce_start
            ≥ (run btn300 confirmRun).btn_tick_long)
      ∧ (¬ sub32 500 (run btn300 confirmRun).btn_tick_debounce_start
            ≥ (run btn300 confirmRun).btn_tick_long →
          (Poll_Button (run btn300 confirmRun) 500 500 GPIO_PIN_SET).btn_state
            = BTN_PRESSED_SHORT)
      ∧ ((run btn300 confirmRun).btn_value_short = 0 →
          (Poll_Button (run btn300 confirmRun) 500 500 GPIO_PIN_SET).btn_value_short = 0) :=
  short_held_promotion (run btn300 confirmRun) 500 500 GPIO_PIN_SET (by decide) (by decide)

/-! ## Leaving BTN_PRESSED_LONG -/

/-- C11: in `BTN_PRESSED_LONG`, a poll that reads the pin active leaves the state
`BTN_PRESSED_LONG`; a poll that reads the pin inactive leaves the state
`BTN_STATE_DEFAULT` with the long latch set, whatever the latch was before and whether or
not the timeout rule cleared it in the same call, and leaves a clear short latch clear. -/
theorem long_held_stay_or_release (B : Button_t) (tick0 tick1 : Nat) (pin : GPIO_PinState)
    (hst : B.btn_state = BTN_PRESSED_LONG) :
    (pin = B.btn_logic_active →
        (Poll_Button B tick0 tick1 pin).btn_state = BTN_PRESSED_LONG)
      ∧ (pin ≠ B.btn_logic_active →
        (Poll_Button B tick0 tick1 pin).btn_state = BTN_STATE_DEFAULT
        ∧ (Poll_Button B tick0 tick1 pin).btn_value_long ≠ 0
        ∧ (B.btn_value_short = 0 → (Poll_Button B tick0 tick1 pin).btn_value_short = 0)) := by
  have hl := Button_Timeout_latches { B with btn_tick_present := tick0 }
  simp only at hl
  rw [Poll_Button_long B tick0 tick1 pin hst]
  constructor
  · intro hpin
    rw [if_pos hpin]
  · intro hpin
    rw [if_neg hpin]
    split_ifs with h
    · refine ⟨rfl, by simp, fun h0 => ?_⟩
      simp only []
      omega
    · refine ⟨rfl, h, fun h0 => ?_⟩
      simp only []
      omega

/-- A concrete instance: the long press of `longHoldRun`, polled at 700 ms with the pin
still active and with the pin released. -/
theorem long_held_stay_or_release_witness :
    (Poll_Button (run btn1000 longHoldRun) 700 700 GPIO_PIN_SET).btn_state = BTN_PRESSED_LONG
      ∧ ((Poll_Button (run btn1000 longHoldRun) 700 700 GPIO_PIN_RESET).btn_state
          = BTN_STATE_DEFAULT
        ∧ (Poll_Button (run btn1000 longHoldRun) 700 700 GPIO_PIN_RESET).btn_value_long ≠ 0
        ∧ ((run btn1000 longHoldRun).btn_value_short = 0 →
          (Poll_Button (run btn1000 longHoldRun) 700 700 GPIO_PIN_RESET).btn_value_short
            = 0)) :=
  ⟨(long_held_stay_or_release (run btn1000 longHoldRun) 700 700 GPIO_PIN_SET
      (by decide)).1 (by decide),
   (long_held_stay_or_release (run btn1000 longHoldRun) 700 700 GPIO_PIN_RESET
      (by decide)).2 (by decide)⟩

/-! ## Reading a clear latch -/

/-- C12: at any pin level, `Button_Read_Short` on a clear short latch returns 0 and hands
the button back unchanged, so a set long latch stays set; and `Button_Read_Long` on a
clear long latch returns 0 and hands the button back unchanged, so a set short latch stays
set. -/
theorem read_clear_latch_is_noop (B : Button_t) (pin : GPIO_PinState) :
    (B.btn_value_short = 0 →
        Button_Read_Short B pin = (0, B)
        ∧ (Button_Read_Short B pin).2.btn_value_long = B.btn_value_long)
      ∧ (B.btn_value_long = 0 →
        Button_Read_Long B pin = (0, B)
        ∧ (Button_Read_Long B pin).2.btn_value_short = B.btn_value_short) := by
  constructor
  · intro h
    have : Button_Read_Short B pin = (0, B) := by
      unfold Button_Read_Short
      split_ifs <;> first | rfl | contradiction
    exact ⟨this, by rw [this]⟩
  · intro h
    have : Button_Read_Long B pin = (0, B) := by
      unfold Button_Read_Long
      split_ifs <;> first | rfl | contradiction
    exact ⟨this, by rw [this]⟩

/-- A concrete instance: the released long press of `longReleaseRun` read with
`Button_Read_Short`, and the released short press of `shortPressRun` read with
`Button_Read_Long`, the pin inactive. -/
theorem read_clear_latch_is_noop_witness :
    (Button_Read_Short (run btn1000 longReleaseRun) GPIO_PIN_RESET
          = (0, run btn1000 longReleaseRun)
        ∧ (Button_Read_Short (run btn1000 longReleaseRun) GPIO_PIN_RESET).2.btn_value_long
          = (run btn1000 longReleaseRun).btn_value_long)
      ∧ (Button_Read_Long (run btn300 shortPressRun) GPIO_PIN_RESET
          = (0, run btn300 shortPressRun)
        ∧ (Button_Read_Long (run btn300 shortPressRun) GPIO_PIN_RESET).2.btn_value_short
          = (run btn300 shortPressRun).btn_value_short) :=
  ⟨(read_clear_latch_is_noop (run btn1000 longReleaseRun) GPIO_PIN_RESET).1 (by decide),
   (read_clear_latch_is_noop (run btn300 shortPressRun) GPIO_PIN_RESET).2 (by decide)⟩

/-! ## Initialisation -/

/-- C13, as stated, fails: `Button_Init` applied to a button that is in the middle of a
long press (state `BTN_PRESSED_LONG`, held output active, long latch set, clock sample
600) leaves all of that in place. -/
theorem Button_Init_keeps_stale_state :
    (Button_Init (run btn1000 longHoldRun) 1073872896 1 GPIO_PIN_SET 20 500 1000).btn_state
        = BTN_PRESSED_LONG
      ∧ held (Button_Init (run btn1000 longHoldRun) 1073872896 1 GPIO_PIN_SET 20 500 1000)
      ∧ (Button_Init (run btn1000 longHoldRun) 1073872896 1 GPIO_PIN_SET 20 500
          1000).btn_value_long = 1
      ∧ (Button_Init (run btn1000 longHoldRun) 1073872896 1 GPIO_PIN_SET 20 500
          1000).btn_tick_present = 600
      ∧ (Button_Init (run btn1000 longHoldRun) 1073872896 1 GPIO_PIN_SET 20 500
          1000).btn_tick_debounce_start = 100 := by
  decide

/-- C13, amended: `Button_Init` leaves every process variable of the structure it is
applied to as it was; applied to the zero-initialised structure it therefore yields state
`BTN_STATE_DEFAULT`, held output false, both latches clear, and `btn_tick_present`,
`btn_tick_debounce_start` and `btn_tick_timeout_start` zero. -/
theorem Button_Init_process_variables (B : Button_t) (gpio gpio_pin : Nat)
    (active : GPIO_PinState) (debounce long timeout : Nat) :
    ((Button_Init B gpio gpio_pin active debounce long timeout).btn_state = B.btn_state
      ∧ (Button_Init B gpio gpio_pin active debounce long timeout).btn_logic_state
          = B.btn_logic_state
      ∧ (Button_Init B gpio gpio_pin active debounce long timeout).btn_value_short
          = B.btn_value_short
      ∧ (Button_Init B gpio gpio_pin active debounce long timeout).btn_value_long
          = B.btn_value_long
      ∧ (Button_Init B gpio gpio_pin active debounce long timeout).btn_tick_present
          = B.btn_tick_present
      ∧ (Button_Init B gpio gpio_pin active debounce long timeout).btn_tick_debounce_start
          = B.btn_tick_debounce_start
      ∧ (Button_Init B gpio gpio_pin active debounce long timeout).btn_tick_timeout_start
          = B.btn_tick_timeout_start)
    ∧ ((Button_Init zeroButton gpio gpio_pin active debounce long timeout).btn_state
          = BTN_STATE_DEFAULT
      ∧ ¬ held (Button_Init zeroButton gpio gpio_pin active debounce long timeout)
      ∧ (Button_Init zeroButton gpio gpio_pin active debounce long timeout).btn_value_short = 0
      ∧ (Button_Init zeroButton gpio gpio_pin active debounce long timeout).btn_value_long = 0
      ∧ (Button_Init zeroButton gpio gpio_pin active debounce long timeout).btn_tick_present = 0
      ∧ (Button_Init zeroButton gpio gpio_pin active debounce long
          timeout).btn_tick_debounce_start = 0
      ∧ (Button_Init zeroButton gpio gpio_pin active debounce long
          timeout).btn_tick_timeout_start = 0) := by
  have key : ∀ X : Button_t,
      (Button_Init X gpio gpio_pin active debounce long timeout).btn_state = X.btn_state
      ∧ (Button_Init X gpio gpio_pin active debounce long timeout).btn_logic_state
          = X.btn_logic_state
      ∧ (Button_Init X gpio gpio_pin active debounce long timeout).btn_value_short
          = X.btn_value_short
      ∧ (Button_Init X gpio gpio_pin active debounce long timeout).btn_value_long
          = X.btn_value_long
      ∧ (Button_Init X gpio gpio_pin active debounce long timeout).btn_tick_present
          = X.btn_tick_present
      ∧ (Button_Init X gpio gpio_pin active debounce long timeout).btn_tick_debounce_start
          = X.btn_tick_debounce_start
      ∧ (Button_Init X gpio gpio_pin active debounce long timeout).btn_tick_timeout_start
          = X.btn_tick_timeout_start := by
    intro X
    unfold Button_Init
    split_ifs <;> simp
  refine ⟨key B, ?_⟩
  obtain ⟨k1, k2, k3, k4, k5, k6, k7⟩ := key zeroButton
  rw [not_held_iff, k1, k2, k3, k4, k5, k6, k7]
  exact ⟨rfl, rfl, rfl, rfl, rfl, rfl, rfl⟩

/-! ## The configuration is never written -/

/-- The configuration after `Button_Timeout` is the one before. -/
theorem configOf_Button_Timeout (X : Button_t) : configOf (Button_Timeout X) = configOf X := by
  obtain ⟨h1, h2, h3, h4, h5, h6, -⟩ := Button_Timeout_frame X
  simp only [configOf, h1, h2, h3, h4, h5, h6]

/-- The configuration after `Poll_Button` is the one before. -/
theorem configOf_Poll_Button (B : Button_t) (tick0 tick1 : Nat) (pin : GPIO_PinState) :
    configOf (Poll_Button B tick0 tick1 pin) = configOf B := by
  have hc := configOf_Button_Timeout { B with btn_tick_present := tick0 }
  simp only [Poll_Button]
  generalize Button_Timeout { B with btn_tick_present := tick0 } = T at hc ⊢
  have hB : configOf { B with btn_tick_present := tick0 } = configOf B := rfl
  rw [hB] at hc
  rw [← hc]
  split_ifs <;> rfl

/-- C14: `Poll_Button`, `Button_Timeout`, `Button_Read_Short` and `Button_Read_Long`
leave the pin reference, the polarity and the three durations as they were, for every
button, clock samples and pin level; `Button_Read_Logic` only returns the field
`btn_logic_state` and writes nothing. -/
theorem configuration_immutable (B : Button_t) (tick0 tick1 : Nat) (pin : GPIO_PinState) :
    configOf (Poll_Button B tick0 tick1 pin) = configOf B
      ∧ configOf (Button_Timeout B) = configOf B
      ∧ configOf (Button_Read_Short B pin).2 = configOf B
      ∧ configOf (Button_Read_Long B pin).2 = configOf B
      ∧ Button_Read_Logic B = B.btn_logic_state := by
  refine ⟨configOf_Poll_Button B tick0 tick1 pin, configOf_Button_Timeout B, ?_, ?_, rfl⟩
  · unfold Button_Read_Short
    split_ifs <;> rfl
  · unfold Button_Read_Long
    split_ifs <;> rfl

/-! ## A long-press duration below the debounce duration -/

/-- C15, as stated, fails: with a long-press duration (10 ms) below the debounce duration
(20 ms), the poll made in `BTN_PRESSED_DEBOUNCING` with the pin active and the debounce
duration elapsed leaves the state `BTN_PRESSED_SHORT`, not `BTN_PRESSED_LONG`. -/
theorem debounce_completion_stops_at_short :
    btnLongBelowDebounce.btn_tick_long < btnLongBelowDebounce.btn_tick_debounce
      ∧ (run btnLongBelowDebounce firstSeenRun).btn_state = BTN_PRESSED_DEBOUNCING
      ∧ sub32 20 (run btnLongBelowDebounce firstSeenRun).btn_tick_debounce_start
          ≥ (run btnLongBelowDebounce firstSeenRun).btn_tick_debounce
      ∧ (Poll_Button (run btnLongBelowDebounce firstSeenRun) 20 20 GPIO_PIN_SET).btn_state
          = BTN_PRESSED_SHORT := by
  decide

/-- C15, amended: with a long-press duration below the debounce duration, the poll made in
`BTN_PRESSED_DEBOUNCING` with the pin active and `(now - btn_tick_debounce_start) mod 2^32`
at or above the debounce duration leaves the state `BTN_PRESSED_SHORT`; the next poll that
reads the pin active, its elapsed time being no smaller than that of the first, leaves the
state `BTN_PRESSED_LONG`. -/
theorem debounce_completion_then_promotion (B : Button_t) (tick0 tick1 next0 next1 : Nat)
    (pin : GPIO_PinState)
    (hst : B.btn_state = BTN_PRESSED_DEBOUNCING) (hpin : pin = B.btn_logic_active)
    (hcfg : B.btn_tick_long < B.btn_tick_debounce)
    (hel : sub32 tick0 B.btn_tick_debounce_start ≥ B.btn_tick_debounce)
    (hnext : sub32 next0 B.btn_tick_debounce_start ≥ sub32 tick0 B.btn_tick_debounce_start) :
    (Poll_Button B tick0 tick1 pin).btn_state = BTN_PRESSED_SHORT
      ∧ (Poll_Button (Poll_Button B tick0 tick1 pin) next0 next1 pin).btn_state
          = BTN_PRESSED_LONG := by
  have hf := Button_Timeout_frame { B with btn_tick_present := tick0 }
  simp only at hf
  obtain ⟨-, -, hact, -, hlong, -, -, -, hds, -, -⟩ := hf
  have h1 : Poll_Button B tick0 tick1 pin =
      { Button_Timeout { B with btn_tick_present := tick0 } with
        btn_logic_state := 0, btn_state := BTN_PRESSED_SHORT } := by
    rw [Poll_Button_debouncing B tick0 tick1 pin hst, if_pos hpin, if_pos hel]
  have hs1 : (Poll_Button B tick0 tick1 pin).btn_state = BTN_PRESSED_SHORT := by rw [h1]
  have ha1 : (Poll_Button B tick0 tick1 pin).btn_logic_active = B.btn_logic_active := by
    rw [h1]; exact hact
  have hd1 : (Poll_Button B tick0 tick1 pin).btn_tick_debounce_start
      = B.btn_tick_debounce_start := by rw [h1]; exact hds
  have hl1 : (Poll_Button B tick0 tick1 pin).btn_tick_long = B.btn_tick_long := by
    rw [h1]; exact hlong
  refine ⟨hs1, ?_⟩
  rw [Poll_Button_short _ next0 next1 pin hs1, if_pos (by rw [ha1]; exact hpin),
    if_pos (by rw [hd1, hl1]; omega)]

/-- A concrete instance: debounce 20 ms, long press 10 ms; a press seen at 0 ms, polled at
20 ms and again at 25 ms with the pin active. -/
theorem debounce_completion_then_promotion_witness :
    (Poll_Button (run btnLongBelowDebounce firstSeenRun) 20 20 GPIO_PIN_SET).btn_state
        = BTN_PRESSED_SHORT
      ∧ (Poll_Button (Poll_Button (run btnLongBelowDebounce firstSeenRun) 20 20 GPIO_PIN_SET)
          25 25 GPIO_PIN_SET).btn_state = BTN_PRESSED_LONG :=
  debounce_completion_then_promotion (run btnLongBelowDebounce firstSeenRun) 20 20 25 25
    GPIO_PIN_SET (by decide) (by decide) (by decide) (by decide) (by decide)

/-! ## A timeout duration of zero -/

/-- C16, as stated, fails: with a timeout duration of zero, the short press released on
the poll at 30 ms is reported by a `Button_Read_Short` made before the next poll. -/
theorem zero_timeout_result_is_read :
    btnNoRetention.btn_tick_timeout = 0
      ∧ (run btnNoRetention shortPressRun).btn_value_short = 1
      ∧ (Button_Read_Short (run btnNoRetention shortPressRun) GPIO_PIN_RESET).1 = 1 := by
  decide

/-- With a timeout duration of zero, `Button_Timeout` leaves both latches clear. -/
theorem Button_Timeout_zero (X : Button_t) (h : X.btn_tick_timeout = 0) :
    (Button_Timeout X).btn_value_short = 0 ∧ (Button_Timeout X).btn_value_long = 0 := by
  unfold Button_Timeout
  split_ifs with h1 h2
  · exact ⟨rfl, rfl⟩
  · omega
  · omega

/-- A read of a clear short latch returns 0. -/
theorem Button_Read_Short_of_clear (X : Button_t) (p : GPIO_PinState)
    (h : X.btn_value_short = 0) : (Button_Read_Short X p).1 = 0 := by
  unfold Button_Read_Short
  split_ifs <;> first | rfl | contradiction

/-- A read of a clear long latch returns 0. -/
theorem Button_Read_Long_of_clear (X : Button_t) (p : GPIO_PinState)
    (h : X.btn_value_long = 0) : (Button_Read_Long X p).1 = 0 := by
  unfold Button_Read_Long
  split_ifs <;> first | rfl | contradiction

/-- C16, amended: with a timeout duration of zero a press result does not survive a poll.
After a `Poll_Button`, the short latch is clear and `Button_Read_Short` returns 0 unless
that same call saw the release from `BTN_PRESSED_SHORT`; the long latch is clear and
`Button_Read_Long` returns 0 unless that same call promoted `BTN_PRESSED_SHORT` to
`BTN_PRESSED_LONG` or saw the release from `BTN_PRESSED_LONG`. -/
theorem zero_timeout_latch_only_from_last_poll (B : Button_t) (tick0 tick1 : Nat)
    (pin p : GPIO_PinState) (h0 : B.btn_tick_timeout = 0) :
    (¬ (B.btn_state = BTN_PRESSED_SHORT ∧ pin ≠ B.btn_logic_active) →
        (Poll_Button B tick0 tick1 pin).btn_value_short = 0
        ∧ (Button_Read_Short (Poll_Button B tick0 tick1 pin) p).1 = 0)
      ∧ (¬ ((B.btn_state = BTN_PRESSED_SHORT ∧ pin = B.btn_logic_active
              ∧ sub32 tick0 B.btn_tick_debounce_start ≥ B.btn_tick_long)
            ∨ (B.btn_state = BTN_PRESSED_LONG ∧ pin ≠ B.btn_logic_active)) →
        (Poll_Button B tick0 tick1 pin).btn_value_long = 0
        ∧ (Button_Read_Long (Poll_Button B tick0 tick1 pin) p).1 = 0) := by
  have hz := Button_Timeout_zero { B with btn_tick_present := tick0 } h0
  have hf := Button_Timeout_frame { B with btn_tick_present := tick0 }
  have hshort : ¬ (B.btn_state = BTN_PRESSED_SHORT ∧ pin ≠ B.btn_logic_active) →
      (Poll_Button B tick0 tick1 pin).btn_value_short = 0 := by
    intro hn
    simp only [Poll_Button]
    generalize Button_Timeout { B with btn_tick_present := tick0 } = T at hz hf ⊢
    obtain ⟨-, -, hact, -, hlong, -, hstT, hpres, hds, -, -⟩ := hf
    simp only at hact hlong hstT hpres hds
    obtain ⟨z1, z2⟩ := hz
    simp only [hact, hlong, hstT, hpres, hds]
    split_ifs <;> first | exact z1 | (exfalso; exact hn ⟨by assumption, by assumption⟩)
  have hlong : ¬ ((B.btn_state = BTN_PRESSED_SHORT ∧ pin = B.btn_logic_active
        ∧ sub32 tick0 B.btn_tick_debounce_start ≥ B.btn_tick_long)
      ∨ (B.btn_state = BTN_PRESSED_LONG ∧ pin ≠ B.btn_logic_active)) →
      (Poll_Button B tick0 tick1 pin).btn_value_long = 0 := by
    intro hn
    simp only [Poll_Button]
    generalize Button_Timeout { B with btn_tick_present := tick0 } = T at hz hf ⊢
    obtain ⟨-, -, hact, -, hlong, -, hstT, hpres, hds, -, -⟩ := hf
    simp only at hact hlong hstT hpres hds
    obtain ⟨z1, z2⟩ := hz
    simp only [hact, hlong, hstT, hpres, hds]
    split_ifs <;> first
      | exact z2
      | (exfalso; exact hn (Or.inl ⟨by assumption, by assumption, by assumption⟩))
      | (exfalso; exact hn (Or.inr ⟨by assumption, by assumption⟩))
  exact ⟨fun hn => ⟨hshort hn, Button_Read_Short_of_clear _ p (hshort hn)⟩,
    fun hn => ⟨hlong hn, Button_Read_Long_of_clear _ p (hlong hn)⟩⟩

/-- A concrete instance: with a timeout duration of zero, the short press released at
30 ms is gone after the poll at 31 ms, and neither read reports it. -/
theorem zero_timeout_latch_only_from_last_poll_witness :
    ((Poll_Button (run btnNoRetention shortPressRun) 31 31 GPIO_PIN_RESET).btn_value_short = 0
        ∧ (Button_Read_Short (Poll_Button (run btnNoRetention shortPressRun) 31 31
            GPIO_PIN_RESET) GPIO_PIN_RESET).1 = 0)
      ∧ ((Poll_Button (run btnNoRetention shortPressRun) 31 31 GPIO_PIN_RESET).btn_value_long
          = 0
        ∧ (Button_Read_Long (Poll_Button (run btnNoRetention shortPressRun) 31 31
            GPIO_PIN_RESET) GPIO_PIN_RESET).1 = 0) :=
  ⟨(zero_timeout_latch_only_from_last_poll (run btnNoRetention shortPressRun) 31 31
      GPIO_PIN_RESET GPIO_PIN_RESET (by decide)).1 (by decide),
   (zero_timeout_latch_only_from_last_poll (run btnNoRetention shortPressRun) 31 31
      GPIO_PIN_RESET GPIO_PIN_RESET (by decide)).2 (by decide)⟩

/-! ## Elapsed time across a rollover of the clock -/

/-- When the clock has advanced by `d < 2^32` ticks from `s`, counted modulo `2^32`, the
32-bit difference of the new sample and `s` is `d`. -/
theorem sub32_add_mod (s d : Nat) (hd : d < U32) : sub32 ((s + d) % U32) s = d := by
  unfold sub32 U32 at *
  omega

/-- C17: let the true elapsed time since a start timestamp be `d < 2^32` and the sampled
clock be the start plus `d` modulo `2^32`, possibly a smaller number than the start. Then
`Poll_Button` in `BTN_PRESSED_DEBOUNCING` with the pin active leaves `BTN_PRESSED_SHORT`
exactly when `d` has reached the debounce duration, `Poll_Button` in `BTN_PRESSED_SHORT`
with the pin active leaves `BTN_PRESSED_LONG` exactly when `d` has reached the long-press
duration, and `Button_Timeout` with a latch set leaves both latches clear exactly when `d`
has reached the timeout duration. -/
theorem elapsed_correct_across_rollover (B : Button_t) (d tick1 : Nat) (pin : GPIO_PinState)
    (hd : d < U32) (hpin : pin = B.btn_logic_active) :
    (B.btn_state = BTN_PRESSED_DEBOUNCING →
        ((Poll_Button B ((B.btn_tick_debounce_start + d) % U32) tick1 pin).btn_state
            = BTN_PRESSED_SHORT ↔ d ≥ B.btn_tick_debounce))
      ∧ (B.btn_state = BTN_PRESSED_SHORT →
        ((Poll_Button B ((B.btn_tick_debounce_start + d) % U32) tick1 pin).btn_state
            = BTN_PRESSED_LONG ↔ d ≥ B.btn_tick_long))
      ∧ (B.btn_value_short ≠ 0 ∨ B.btn_value_long ≠ 0 →
        (((Button_Timeout
              { B with btn_tick_present := (B.btn_tick_timeout_start + d) % U32 }).btn_value_short
            = 0
          ∧ (Button_Timeout
              { B with btn_tick_present := (B.btn_tick_timeout_start + d) % U32 }).btn_value_long
            = 0) ↔ d ≥ B.btn_tick_timeout)) := by
  refine ⟨fun hst => ?_, fun hst => ?_, fun hlatch => ?_⟩
  · rw [Poll_Button_debouncing B _ tick1 pin hst, if_pos hpin,
      sub32_add_mod B.btn_tick_debounce_start d hd]
    split_ifs with h
    · exact ⟨fun _ => h, fun _ => rfl⟩
    · refine ⟨fun hc => ?_, fun hc => absurd hc h⟩
      simp [BTN_PRESSED_DEBOUNCING, BTN_PRESSED_SHORT] at hc
  · rw [Poll_Button_short B _ tick1 pin hst, if_pos hpin,
      sub32_add_mod B.btn_tick_debounce_start d hd]
    split_ifs with h
    · exact ⟨fun _ => h, fun _ => rfl⟩
    · refine ⟨fun hc => ?_, fun hc => absurd hc h⟩
      simp [BTN_PRESSED_SHORT, BTN_PRESSED_LONG] at hc
  · unfold Button_Timeout
    simp only [if_pos hlatch, sub32_add_mod B.btn_tick_timeout_start d hd]
    split_ifs with h
    · exact ⟨fun _ => h, fun _ => ⟨rfl, rfl⟩⟩
    · refine ⟨fun hc => ?_, fun hc => absurd hc h⟩
      simp only at hc
      omega

/-- A concrete instance around the rollover: a press seen at 4294967290 and polled 30 ms
later (clock 24); the same press, confirmed, polled 500 ms after it was seen (clock 494);
a short result latched at 4294967290 and checked 300 ms later (clock 294). -/
theorem elapsed_correct_across_rollover_witness :
    ((Poll_Button (run btn300 pressBeforeRollover)
          (((run btn300 pressBeforeRollover).btn_tick_debounce_start + 30) % U32) 24
          GPIO_PIN_SET).btn_state = BTN_PRESSED_SHORT
        ↔ 30 ≥ (run btn300 pressBeforeRollover).btn_tick_debounce)
      ∧ ((Poll_Button (run btn300 confirmAfterRollover)
          (((run btn300 confirmAfterRollover).btn_tick_debounce_start + 500) % U32) 494
          GPIO_PIN_SET).btn_state = BTN_PRESSED_LONG
        ↔ 500 ≥ (run btn300 confirmAfterRollover).btn_tick_long)
      ∧ (((Button_Timeout
            { run btn300 releaseBeforeRollover with
              btn_tick_present :=
                ((run btn300 releaseBeforeRollover).btn_tick_timeout_start + 300)
                  % U32 }).btn_value_short = 0
          ∧ (Button_Timeout
            { run btn300 releaseBeforeRollover with
              btn_tick_present :=
                ((run btn300 releaseBeforeRollover).btn_tick_timeout_start + 300)
                  % U32 }).btn_value_long = 0)
        ↔ 300 ≥ (run btn300 releaseBeforeRollover).btn_tick_timeout) :=
  ⟨(elapsed_correct_across_rollover (run btn300 pressBeforeRollover) 30 24 GPIO_PIN_SET
      (by decide) (by decide)).1 (by decide),
   (elapsed_correct_across_rollover (run btn300 confirmAfterRollover) 500 494 GPIO_PIN_SET
      (by decide) (by decide)).2.1 (by decide),
   (elapsed_correct_across_rollover (run btn300 releaseBeforeRollover) 300 0 GPIO_PIN_SET
      (by decide) (by decide)).2.2 (by decide)⟩

/-! ## The clock samples of one poll -/

/-- C18: when the clock advances by one tick between the `HAL_GetTick()` call at the start
of `Poll_Button` and the one made where a timestamp is written, the timestamp is the later
sample, not the cached `btn_tick_present`: on the first sight of a press
(`btn_tick_debounce_start`), on the release of a short press and on the release of a long
press (`btn_tick_timeout_start`). -/
theorem timestamps_use_second_sample :
    (Poll_Button btn300 100 101 GPIO_PIN_SET).btn_tick_present = 100
      ∧ (Poll_Button btn300 100 101 GPIO_PIN_SET).btn_tick_debounce_start = 101
      ∧ (Poll_Button (run btn300 confirmRun) 30 31 GPIO_PIN_RESET).btn_tick_present = 30
      ∧ (Poll_Button (run btn300 confirmRun) 30 31 GPIO_PIN_RESET).btn_tick_timeout_start = 31
      ∧ (Poll_Button (run btn300 longHoldRun) 700 701 GPIO_PIN_RESET).btn_tick_present = 700
      ∧ (Poll_Button (run btn300 longHoldRun) 700 701 GPIO_PIN_RESET).btn_tick_timeout_start
          = 701 := by
  decide

/-! ## Promotion to BTN_PRESSED_LONG -/

/-- C19, as stated, fails: a press seen at 100 ms and confirmed at 120 ms is in
`BTN_PRESSED_SHORT`; the poll at 600 ms, the pin active and the long-press duration
elapsed, sets the long latch and moves to `BTN_PRESSED_LONG` but leaves
`btn_tick_timeout_start` at its old value 0, not at 600. -/
theorem promotion_records_no_latch_time :
    (run btn1000 (longHoldRun.take 2)).btn_state = BTN_PRESSED_SHORT
      ∧ sub32 600 (run btn1000 (longHoldRun.take 2)).btn_tick_debounce_start
          ≥ (run btn1000 (longHoldRun.take 2)).btn_tick_long
      ∧ (Poll_Button (run btn1000 (longHoldRun.take 2)) 600 600 GPIO_PIN_SET).btn_state
          = BTN_PRESSED_LONG
      ∧ (Poll_Button (run btn1000 (longHoldRun.take 2)) 600 600 GPIO_PIN_SET).btn_value_long
          = 1
      ∧ (Poll_Button (run btn1000 (longHoldRun.take 2)) 600 600
          GPIO_PIN_SET).btn_tick_timeout_start = 0 := by
  decide

/-- C19, amended: in `BTN_PRESSED_SHORT`, a poll that reads the pin active with
`(now - btn_tick_debounce_start) mod 2^32` at or above the long-press duration leaves the
state `BTN_PRESSED_LONG` and the long latch set, and leaves `btn_tick_timeout_start` as it
was before the call: no latch time is recorded while the button is still held. -/
theorem promotion_latches_without_stamp (B : Button_t) (tick0 tick1 : Nat)
    (pin : GPIO_PinState)
    (hst : B.btn_state = BTN_PRESSED_SHORT) (hpin : pin = B.btn_logic_active)
    (hel : sub32 tick0 B.btn_tick_debounce_start ≥ B.btn_tick_long) :
    (Poll_Button B tick0 tick1 pin).btn_state = BTN_PRESSED_LONG
      ∧ (Poll_Button B tick0 tick1 pin).btn_value_long = 1
      ∧ (Poll_Button B tick0 tick1 pin).btn_tick_timeout_start
          = B.btn_tick_timeout_start := by
  have hf := Button_Timeout_frame { B with btn_tick_present := tick0 }
  simp only at hf
  rw [Poll_Button_short B tick0 tick1 pin hst, if_pos hpin, if_pos hel]
  exact ⟨rfl, rfl, hf.2.2.2.2.2.2.2.2.2.1⟩

/-- A concrete instance: a short press released at 200 ms and never read, then a second
press seen at 1000 ms, confirmed at 1020 ms and promoted by the poll at 1500 ms, which
leaves `btn_tick_timeout_start` at the release time of the first press. -/
theorem promotion_latches_without_stamp_witness :
    (Poll_Button (run btn10000 (shortThenLongRun.take 5)) 1500 1500 GPIO_PIN_SET).btn_state
        = BTN_PRESSED_LONG
      ∧ (Poll_Button (run btn10000 (shortThenLongRun.take 5)) 1500 1500
          GPIO_PIN_SET).btn_value_long = 1
      ∧ (Poll_Button (run btn10000 (shortThenLongRun.take 5)) 1500 1500
          GPIO_PIN_SET).btn_tick_timeout_start
          = (run btn10000 (shortThenLongRun.take 5)).btn_tick_timeout_start :=
  promotion_latches_without_stamp (run btn10000 (shortThenLongRun.take 5)) 1500 1500
    GPIO_PIN_SET (by decide) (by decide) (by decide)

/-! ## The held output follows the state a poll starts in -/

/-- C20: for a button in one of the four recognised states, the held output after
`Poll_Button` is true exactly when the state before the call was `BTN_PRESSED_SHORT` or
`BTN_PRESSED_LONG`, whatever the pin level, the clock samples and the transition taken. -/
theorem held_reflects_entry_state (B : Button_t) (tick0 tick1 : Nat) (pin : GPIO_PinState)
    (hrec : B.btn_state = BTN_STATE_DEFAULT ∨ B.btn_state = BTN_PRESSED_DEBOUNCING
      ∨ B.btn_state = BTN_PRESSED_SHORT ∨ B.btn_state = BTN_PRESSED_LONG) :
    held (Poll_Button B tick0 tick1 pin)
      ↔ (B.btn_state = BTN_PRESSED_SHORT ∨ B.btn_state = BTN_PRESSED_LONG) := by
  unfold held Button_Read_Logic BTN_INACTIVE
  rcases hrec with h | h | h | h
  · rw [Poll_Button_default B tick0 tick1 pin h]
    simp only [h, BTN_STATE_DEFAULT, BTN_PRESSED_SHORT, BTN_PRESSED_LONG]
    split_ifs <;> simp
  · rw [Poll_Button_debouncing B tick0 tick1 pin h]
    simp only [h, BTN_PRESSED_DEBOUNCING, BTN_PRESSED_SHORT, BTN_PRESSED_LONG]
    split_ifs <;> simp
  · rw [Poll_Button_short B tick0 tick1 pin h]
    simp only [h, BTN_PRESSED_SHORT, BTN_PRESSED_LONG]
    split_ifs <;> simp
  · rw [Poll_Button_long B tick0 tick1 pin h]
    simp only [h, BTN_PRESSED_SHORT, BTN_PRESSED_LONG]
    split_ifs <;> simp

/-- A concrete instance: the poll that sees the release of the confirmed press of
`confirmRun` starts in `BTN_PRESSED_SHORT` and leaves the held output true. -/
theorem held_reflects_entry_state_witness :
    held (Poll_Button (run btn300 confirmRun) 30 30 GPIO_PIN_RESET)
      ↔ ((run btn300 confirmRun).btn_state = BTN_PRESSED_SHORT
        ∨ (run btn300 confirmRun).btn_state = BTN_PRESSED_LONG) :=
  held_reflects_entry_state (run btn300 confirmRun) 30 30 GPIO_PIN_RESET (by decide)

end Button
